import Mathlib

/-!
Verification of the cloud resource-allocation decision engine.

The development shallowly embeds the two modules the specification's
testable properties are about:

* `backend/models/allocator.py` — `ResourceAllocator`: scale-direction
  logic, instance-tier stepping tables, cost estimation, and the
  budget-constrained configuration search;
* `backend/services/optimizer.py` — `CostOptimizer`: the optimization
  score, cost-trend analysis, and ROI calculation.

Modelling conventions:

* All Python numbers are embedded as rationals (`ℚ`); instance counts are
  also carried as rationals, which contains every integer value the code
  manipulates (`+ 1`, `- 1`, comparisons, products).
* Python's `round(x, d)` uses round-half-to-even; `pyRound` reproduces it
  exactly on rationals.
* Optional dictionary fields (`dict.get(key, fallback)`) are embedded as
  `Option` fields read with `Option.getD`.
* `datetime.utcnow()` timestamps and the diagnostic `reason` strings carry
  no decision-relevant information and are omitted from the records.
* A cost record's `timestamp.date()` is abstracted to an integer day index.
* The `try/except` wrappers in the source cannot fire on the arithmetic
  paths modelled here (every operation below is total), so the embedded
  functions return their success-path values directly.
-/

/-- Round-half-to-even to an integer, as Python's `round` behaves on exact
decimal values. -/
def rhe (y : ℚ) : ℤ :=
  if y - ⌊y⌋ < 1/2 then ⌊y⌋
  else if 1/2 < y - ⌊y⌋ then ⌊y⌋ + 1
  else if ⌊y⌋ % 2 = 0 then ⌊y⌋ else ⌊y⌋ + 1

/-- Python's `round(x, d)` on rationals. -/
def pyRound (d : ℕ) (x : ℚ) : ℚ := (rhe (x * 10 ^ d) : ℚ) / 10 ^ d

theorem rhe_eval_lo (y : ℚ) (k : ℤ) (h1 : (k : ℚ) ≤ y) (h2 : y - k < 1/2) :
    rhe y = k := by
  have hf : ⌊y⌋ = k := by
    rw [Int.floor_eq_iff]
    exact ⟨h1, by push_cast; linarith⟩
  simp only [rhe, hf]
  rw [if_pos h2]

theorem rhe_eval_hi (y : ℚ) (k : ℤ) (h1 : 1/2 < y - k) (h2 : y < k + 1) :
    rhe y = k + 1 := by
  have hf : ⌊y⌋ = k := by
    rw [Int.floor_eq_iff]
    exact ⟨by linarith, by push_cast; linarith⟩
  simp only [rhe, hf]
  rw [if_neg (by linarith), if_pos h1]

theorem rhe_eval_half (y : ℚ) (k : ℤ) (h1 : y - k = 1/2) :
    rhe y = (if k % 2 = 0 then k else k + 1) := by
  have hf : ⌊y⌋ = k := by
    rw [Int.floor_eq_iff]
    exact ⟨by linarith, by push_cast; linarith⟩
  simp only [rhe, hf, h1]
  norm_num

theorem rhe_intCast (k : ℤ) : rhe (k : ℚ) = k := by
  apply rhe_eval_lo
  · exact le_refl _
  · norm_num

theorem abs_rhe_sub (y : ℚ) : |(rhe y : ℚ) - y| ≤ 1/2 := by
  have hfl : (⌊y⌋ : ℚ) ≤ y := Int.floor_le y
  have hfu : y < ⌊y⌋ + 1 := Int.lt_floor_add_one y
  rw [rhe]
  split
  · rw [abs_le]; constructor <;> linarith
  · split
    · push_cast
      rw [abs_le]; constructor <;> linarith
    · split <;> · push_cast; rw [abs_le]; constructor <;> linarith

theorem rhe_nonneg (y : ℚ) (h : 0 ≤ y) : 0 ≤ rhe y := by
  have : 0 ≤ ⌊y⌋ := Int.floor_nonneg.mpr h
  rw [rhe]
  split
  · exact this
  · split
    · omega
    · split <;> omega

theorem rhe_le_of_le (y : ℚ) (B : ℤ) (h : y ≤ B) : rhe y ≤ B := by
  have hfl : ⌊y⌋ ≤ B := by
    have h2 := Int.floor_le_floor h
    rwa [Int.floor_intCast] at h2
  rw [rhe]
  by_cases hc : y - ⌊y⌋ < 1/2
  · rw [if_pos hc]
    exact hfl
  · rw [if_neg hc]
    have hne : ⌊y⌋ ≠ B := by
      intro hb
      apply hc
      rw [hb]
      linarith
    split
    · omega
    · split <;> omega

theorem pyRound_eval_lo (d : ℕ) (x : ℚ) (k : ℤ) (h1 : (k : ℚ) ≤ x * 10 ^ d)
    (h2 : x * 10 ^ d - k < 1/2) : pyRound d x = k / 10 ^ d := by
  rw [pyRound, rhe_eval_lo _ k h1 h2]

theorem pyRound_eval_hi (d : ℕ) (x : ℚ) (k : ℤ) (h1 : 1/2 < x * 10 ^ d - k)
    (h2 : x * 10 ^ d < k + 1) : pyRound d x = (k + 1) / 10 ^ d := by
  rw [pyRound, rhe_eval_hi _ k h1 h2]
  push_cast
  ring

theorem pyRound_eval_half_even (d : ℕ) (x : ℚ) (k : ℤ) (h1 : x * 10 ^ d - k = 1/2)
    (h2 : k % 2 = 0) : pyRound d x = k / 10 ^ d := by
  rw [pyRound, rhe_eval_half _ k h1, if_pos h2]

/-- A value that is already an exact multiple of `10 ^ (-d)` is returned
unchanged by `round(·, d)`. -/
theorem pyRound_eq_self (d : ℕ) (x : ℚ) (k : ℤ) (h : x * 10 ^ d = (k : ℚ)) :
    pyRound d x = x := by
  rw [pyRound, h, rhe_intCast]
  have hp : (10 : ℚ) ^ d ≠ 0 := by positivity
  field_simp at h ⊢
  linarith [h]

theorem abs_pyRound_sub (d : ℕ) (x : ℚ) : |pyRound d x - x| ≤ 1 / (2 * 10 ^ d) := by
  have hp : (0 : ℚ) < 10 ^ d := by positivity
  have h := abs_rhe_sub (x * 10 ^ d)
  rw [pyRound]
  have : (rhe (x * 10 ^ d) : ℚ) / 10 ^ d - x = ((rhe (x * 10 ^ d) : ℚ) - x * 10 ^ d) / 10 ^ d := by
    field_simp
    ring
  rw [this, abs_div, abs_of_pos hp, div_le_div_iff hp (by positivity)]
  calc |(rhe (x * 10 ^ d) : ℚ) - x * 10 ^ d| * (2 * 10 ^ d)
      ≤ (1/2) * (2 * 10 ^ d) := by
        apply mul_le_mul_of_nonneg_right h
        positivity
    _ = 1 * 10 ^ d := by ring

theorem pyRound_nonneg (d : ℕ) (x : ℚ) (h : 0 ≤ x) : 0 ≤ pyRound d x := by
  rw [pyRound]
  apply div_nonneg _ (by positivity)
  exact_mod_cast rhe_nonneg _ (by positivity)

theorem pyRound_le_hundred (d : ℕ) (x : ℚ) (h : x ≤ 100) : pyRound d x ≤ 100 := by
  have hp : (0 : ℚ) < 10 ^ d := by positivity
  rw [pyRound, div_le_iff hp]
  have hb : rhe (x * 10 ^ d) ≤ 100 * 10 ^ d := by
    apply rhe_le_of_le
    push_cast
    exact mul_le_mul_of_nonneg_right h (le_of_lt hp)
  have hcast : (rhe (x * 10 ^ d) : ℚ) ≤ ((100 * 10 ^ d : ℤ) : ℚ) := by exact_mod_cast hb
  push_cast at hcast
  linarith

/-- Python's `dict.get(key, fallback)` over an association list. -/
def dictGet {α : Type} (l : List (String × α)) (k : String) (fallback : α) : α :=
  match l with
  | [] => fallback
  | (k2, v) :: t => if k2 = k then v else dictGet t k fallback

theorem dictGet_of_not_mem {α : Type} (l : List (String × α)) (k : String) (fallback : α)
    (h : k ∉ l.map Prod.fst) : dictGet l k fallback = fallback := by
  induction l with
  | nil => rfl
  | cons p t ih =>
    simp only [List.map_cons, List.mem_cons] at h
    push_neg at h
    rw [dictGet]
    rw [if_neg (by intro he; exact h.1 he.symm)]
    exact ih h.2

theorem dictGet_mem_values {α : Type} (l : List (String × α)) (k : String) (fallback : α) :
    dictGet l k fallback = fallback ∨ dictGet l k fallback ∈ l.map Prod.snd := by
  induction l with
  | nil => left; rfl
  | cons p t ih =>
    rw [dictGet]
    by_cases h : p.1 = k
    · rw [if_pos h]
      right
      simp
    · rw [if_neg h]
      rcases ih with h2 | h2
      · left; exact h2
      · right; simp [h2]

/-- A predicted (or measured) workload sample; missing dictionary fields are
`none`. -/
structure WorkloadSample where
  cpu_usage : Option ℚ
  memory_usage : Option ℚ
  network_usage : Option ℚ

/-- The current fleet allocation; missing dictionary fields are `none`. -/
structure Allocation where
  instance_count : Option ℚ
  instance_type : Option String

structure CostEstimate where
  hourly : ℚ
  daily : ℚ
  monthly : ℚ
deriving DecidableEq

/-- The recommendation dictionary. `current_instances` and
`current_instance_type` are `Option` because the budget-search result omits
those keys. The `timestamp` and `reason` entries are not modelled. -/
structure Recommendation where
  action : String
  current_instances : Option ℚ
  recommended_instances : ℚ
  current_instance_type : Option String
  recommended_instance_type : String
  predicted_cpu : ℚ
  predicted_memory : ℚ
  estimated_cost : CostEstimate
deriving DecidableEq

namespace ResourceAllocator

/-- `Config.CPU_THRESHOLD_HIGH` default. -/
def CPU_THRESHOLD_HIGH : ℚ := 80

/-- `Config.CPU_THRESHOLD_LOW` default. -/
def CPU_THRESHOLD_LOW : ℚ := 30

/-- `Config.MEMORY_THRESHOLD_HIGH` default. -/
def MEMORY_THRESHOLD_HIGH : ℚ := 85

/-- `Config.MEMORY_THRESHOLD_LOW` default. -/
def MEMORY_THRESHOLD_LOW : ℚ := 35

/-- `type_hierarchy` of `_get_larger_instance_type`. -/
def type_hierarchy_up : List (String × String) :=
  [("t2.micro", "t2.small"), ("t2.small", "t2.medium"), ("t2.medium", "t2.large"),
   ("t2.large", "t2.xlarge"), ("t2.xlarge", "t2.2xlarge"),
   ("t3.micro", "t3.small"), ("t3.small", "t3.medium"), ("t3.medium", "t3.large"),
   ("t3.large", "t3.xlarge"), ("t3.xlarge", "t3.2xlarge")]

/-- `type_hierarchy` of `_get_smaller_instance_type`. -/
def type_hierarchy_down : List (String × String) :=
  [("t2.small", "t2.micro"), ("t2.medium", "t2.small"), ("t2.large", "t2.medium"),
   ("t2.xlarge", "t2.large"), ("t2.2xlarge", "t2.xlarge"),
   ("t3.small", "t3.micro"), ("t3.medium", "t3.small"), ("t3.large", "t3.medium"),
   ("t3.xlarge", "t3.large"), ("t3.2xlarge", "t3.xlarge")]

/-- `ResourceAllocator._get_larger_instance_type`. -/
def get_larger_instance_type (current_type : String) : String :=
  dictGet type_hierarchy_up current_type current_type

/-- `ResourceAllocator._get_smaller_instance_type`. -/
def get_smaller_instance_type (current_type : String) : String :=
  dictGet type_hierarchy_down current_type current_type

/-- The `pricing` table of `_estimate_cost` (USD per hour). -/
def pricing : List (String × ℚ) :=
  [("t2.micro", 0.0116), ("t2.small", 0.023), ("t2.medium", 0.0464),
   ("t2.large", 0.0928), ("t2.xlarge", 0.1856), ("t2.2xlarge", 0.3712),
   ("t3.micro", 0.0104), ("t3.small", 0.0208), ("t3.medium", 0.0416),
   ("t3.large", 0.0832), ("t3.xlarge", 0.1664), ("t3.2xlarge", 0.3328)]

/-- `ResourceAllocator._estimate_cost`. -/
def estimate_cost (instance_count : ℚ) (instance_type : String) : CostEstimate :=
  let hourly_cost := dictGet pricing instance_type 0.0116 * instance_count
  let daily_cost := hourly_cost * 24
  let monthly_cost := daily_cost * 30
  { hourly := pyRound 4 hourly_cost
    daily := pyRound 2 daily_cost
    monthly := pyRound 2 monthly_cost }

/-- `ResourceAllocator.calculate_required_resources`. The recommendation
dictionary is built mutably in the source; here the final record of each
branch is constructed directly, and `estimated_cost` is attached at the end
exactly as in the source (from the final recommended count and tier). -/
def calculate_required_resources (predictions : WorkloadSample)
    (current_allocation : Allocation) : Recommendation :=
  let predicted_cpu := predictions.cpu_usage.getD 0
  let predicted_memory := predictions.memory_usage.getD 0
  let current_instances := current_allocation.instance_count.getD 1
  let current_instance_type := current_allocation.instance_type.getD "t2.micro"
  let base : Recommendation :=
    { action := "maintain"
      current_instances := some current_instances
      recommended_instances := current_instances
      current_instance_type := some current_instance_type
      recommended_instance_type := current_instance_type
      predicted_cpu := predicted_cpu
      predicted_memory := predicted_memory
      estimated_cost := ⟨0, 0, 0⟩ }
  let r1 : Recommendation :=
    if predicted_cpu > CPU_THRESHOLD_HIGH ∨ predicted_memory > MEMORY_THRESHOLD_HIGH then
      { base with
        action := "scale_up"
        recommended_instances := current_instances + 1
        recommended_instance_type :=
          if predicted_cpu > 90 ∨ predicted_memory > 90 then
            get_larger_instance_type current_instance_type
          else current_instance_type }
    else if predicted_cpu < CPU_THRESHOLD_LOW ∧ predicted_memory < MEMORY_THRESHOLD_LOW then
      if current_instances > 1 then
        { base with
          action := "scale_down"
          recommended_instances := current_instances - 1 }
      else
        let smaller_type := get_smaller_instance_type current_instance_type
        if smaller_type ≠ current_instance_type then
          { base with
            action := "scale_down"
            recommended_instance_type := smaller_type }
        else base
    else base
  { r1 with
    estimated_cost := estimate_cost r1.recommended_instances r1.recommended_instance_type }

/-- The `capacity` table of `_calculate_performance_score` (only the `t2`
family is listed in the source). -/
def capacity : List (String × ℚ) :=
  [("t2.micro", 1), ("t2.small", 2), ("t2.medium", 4), ("t2.large", 8), ("t2.xlarge", 16)]

/-- `ResourceAllocator._calculate_performance_score`. Note the source
defaults a missing `cpu_usage` to `50` here, unlike the other readers. -/
def calculate_performance_score (instance_count : ℚ) (instance_type : String)
    (predictions : WorkloadSample) : ℚ :=
  let total_capacity := dictGet capacity instance_type 1 * instance_count
  let predicted_load := predictions.cpu_usage.getD 50 / 10
  let score :=
    if total_capacity ≥ predicted_load then
      100 - |total_capacity - predicted_load| * 10
    else
      50 - (predicted_load - total_capacity) * 20
  max 0 score

/-- The `best_config` dictionary accumulated by `_find_budget_optimal_config`. -/
structure BudgetConfig where
  instance_count : ℚ
  instance_type : String
  estimated_cost : CostEstimate
  performance_score : ℚ
deriving DecidableEq

/-- The candidate tiers of `_find_budget_optimal_config`. -/
def candidate_instance_types : List String :=
  ["t2.micro", "t2.small", "t2.medium", "t2.large"]

/-- The candidate instance counts `range(1, 6)`. -/
def candidate_instance_counts : List ℚ := [1, 2, 3, 4, 5]

/-- The (tier, count) pairs visited by the nested loops of
`_find_budget_optimal_config`, tiers outer, counts inner ascending. -/
def budget_search_pairs : List (String × ℚ) :=
  (candidate_instance_types.map fun t =>
    candidate_instance_counts.map fun c => (t, c)).flatten

/-- One iteration of the loop body of `_find_budget_optimal_config`: the
state is `(best_config, best_score)`, started at `(None, -1)`. -/
def budget_search_step (predictions : WorkloadSample) (budget : ℚ)
    (st : Option BudgetConfig × ℚ) (p : String × ℚ) : Option BudgetConfig × ℚ :=
  let cost := estimate_cost p.2 p.1
  if cost.monthly ≤ budget then
    let score := calculate_performance_score p.2 p.1 predictions
    if score > st.2 then (some ⟨p.2, p.1, cost, score⟩, score) else st
  else st

/-- `ResourceAllocator._find_budget_optimal_config`. -/
def find_budget_optimal_config (predictions : WorkloadSample)
    (_current_allocation : Allocation) (budget : ℚ) : Option Recommendation :=
  let best := budget_search_pairs.foldl (budget_search_step predictions budget) (none, -1)
  best.1.map fun bc =>
    { action := "optimize"
      current_instances := none
      recommended_instances := bc.instance_count
      current_instance_type := none
      recommended_instance_type := bc.instance_type
      predicted_cpu := predictions.cpu_usage.getD 0
      predicted_memory := predictions.memory_usage.getD 0
      estimated_cost := bc.estimated_cost }

/-- `ResourceAllocator.optimize_for_cost`. -/
def optimize_for_cost (predictions : WorkloadSample) (current_allocation : Allocation)
    (budget_constraint : ℚ) : Option Recommendation :=
  let base_recommendation := calculate_required_resources predictions current_allocation
  let estimated_monthly := base_recommendation.estimated_cost.monthly
  if estimated_monthly > budget_constraint then
    find_budget_optimal_config predictions current_allocation budget_constraint
  else
    some base_recommendation

end ResourceAllocator

namespace CostOptimizer

/-- `Config.COST_WEIGHT` default. -/
def COST_WEIGHT : ℚ := 0.5

/-- `Config.PERFORMANCE_WEIGHT` default. -/
def PERFORMANCE_WEIGHT : ℚ := 0.5

/-- A live metrics record; missing dictionary fields are `none`. -/
structure Metrics where
  cpu_usage : Option ℚ
  memory_usage : Option ℚ

/-- The `base_costs` table of `_calculate_cost_score` (only the `t2` family
is listed in the source). -/
def base_costs : List (String × ℚ) :=
  [("t2.micro", 0.0116), ("t2.small", 0.023), ("t2.medium", 0.0464),
   ("t2.large", 0.0928), ("t2.xlarge", 0.1856)]

/-- `CostOptimizer._calculate_cost_score`. -/
def calculate_cost_score (allocation : Allocation) : ℚ :=
  let instance_count := allocation.instance_count.getD 1
  let instance_type := allocation.instance_type.getD "t2.micro"
  let hourly_cost := dictGet base_costs instance_type 0.0116 * instance_count
  let max_cost : ℚ := 5
  max 0 (100 - hourly_cost / max_cost * 100)

/-- `CostOptimizer._calculate_performance_score`. -/
def calculate_performance_score (metrics : Metrics) : ℚ :=
  let cpu_usage := metrics.cpu_usage.getD 0
  let memory_usage := metrics.memory_usage.getD 0
  let cpu_score :=
    if 60 ≤ cpu_usage ∧ cpu_usage ≤ 80 then 100
    else if cpu_usage < 60 then 100 - (60 - cpu_usage) * 2
    else 100 - (cpu_usage - 80) * 3
  let memory_score :=
    if 60 ≤ memory_usage ∧ memory_usage ≤ 80 then 100
    else if memory_usage < 60 then 100 - (60 - memory_usage) * 2
    else 100 - (memory_usage - 80) * 3
  max 0 (min 100 ((cpu_score + memory_score) / 2))

/-- `CostOptimizer.calculate_optimization_score`. -/
def calculate_optimization_score (allocation : Allocation) (metrics : Metrics) : ℚ :=
  pyRound 2 (COST_WEIGHT * calculate_cost_score allocation +
    PERFORMANCE_WEIGHT * calculate_performance_score metrics)

/-- A cost record. `timestamp.date()` is abstracted to the integer `day`;
the `cost` field is read with `record.get` and so may be missing. -/
structure CostRecord where
  day : ℤ
  cost : Option ℚ

/-- The result dictionary of `analyze_cost_trends`. `days_analyzed` is
`none` for the empty-history result, which omits that key. -/
structure TrendAnalysis where
  trend : String
  average_daily_cost : ℚ
  total_cost : ℚ
  projected_monthly_cost : ℚ
  days_analyzed : Option ℕ
deriving DecidableEq

/-- One `daily_costs` dictionary update: add to an existing date bucket or
append a new one, preserving insertion order as a Python dict does. -/
def updateAssoc (l : List (ℤ × ℚ)) (d : ℤ) (c : ℚ) : List (ℤ × ℚ) :=
  match l with
  | [] => [(d, c)]
  | (k, v) :: t => if k = d then (k, v + c) :: t else (k, v) :: updateAssoc t d c

/-- The `daily_costs` dictionary of `analyze_cost_trends`, as an ordered
association list from day to summed cost. -/
def daily_costs (cost_history : List CostRecord) : List (ℤ × ℚ) :=
  cost_history.foldl (fun acc r => updateAssoc acc r.day (r.cost.getD 0)) []

/-- `CostOptimizer.analyze_cost_trends`. -/
def analyze_cost_trends (cost_history : List CostRecord) : TrendAnalysis :=
  if cost_history.isEmpty then
    { trend := "stable", average_daily_cost := 0, total_cost := 0,
      projected_monthly_cost := 0, days_analyzed := none }
  else
    let costs := (daily_costs cost_history).map Prod.snd
    let n := costs.length
    let avg_daily_cost := if costs.isEmpty then 0 else costs.sum / n
    let total_cost := costs.sum
    let trend :=
      if 7 ≤ n then
        let recent_avg := (costs.drop (n - 7)).sum / 7
        let older_avg := if 7 < n then (costs.take (n - 7)).sum / ((n - 7 : ℕ) : ℚ)
          else recent_avg
        if recent_avg > older_avg * 1.1 then "increasing"
        else if recent_avg < older_avg * 0.9 then "decreasing"
        else "stable"
      else "insufficient_data"
    { trend := trend
      average_daily_cost := pyRound 2 avg_daily_cost
      total_cost := pyRound 2 total_cost
      projected_monthly_cost := pyRound 2 (avg_daily_cost * 30)
      days_analyzed := some n }

/-- The result dictionary of `calculate_roi`. `payback_period_months` is
`none` when the source produces the float `inf`. -/
structure RoiAnalysis where
  monthly_savings : ℚ
  annual_savings : ℚ
  implementation_cost : ℚ
  payback_period_months : Option ℚ
  roi_percentage : ℚ
  savings_percentage : ℚ
deriving DecidableEq

/-- `CostOptimizer.calculate_roi`. -/
def calculate_roi (baseline_cost optimized_cost implementation_cost : ℚ) : RoiAnalysis :=
  let monthly_savings := baseline_cost - optimized_cost
  let annual_savings := monthly_savings * 12
  let payback_period : Option ℚ :=
    if implementation_cost > 0 then
      if monthly_savings > 0 then some (implementation_cost / monthly_savings) else none
    else some 0
  let roi_percentage : ℚ :=
    if implementation_cost > 0 then
      (annual_savings - implementation_cost) / implementation_cost * 100
    else 100
  { monthly_savings := pyRound 2 monthly_savings
    annual_savings := pyRound 2 annual_savings
    implementation_cost := implementation_cost
    payback_period_months := payback_period.map (pyRound 1)
    roi_percentage := pyRound 2 roi_percentage
    savings_percentage :=
      if baseline_cost > 0 then pyRound 2 (monthly_savings / baseline_cost * 100) else 0 }

end CostOptimizer

/-! ## Claim theorems -/

/-- C1: for every predicted workload with cpu > 80 or memory > 85 and every
current allocation, the recommendation has action `scale_up` with
`recommended_instances = current.instance_count + 1`; if additionally
cpu > 90 or memory > 90 the recommended tier is the current tier stepped up
one level, otherwise the tier is unchanged. -/
theorem C1_scale_up_recommendation (p : WorkloadSample) (a : Allocation)
    (h : 80 < p.cpu_usage.getD 0 ∨ 85 < p.memory_usage.getD 0) :
    (ResourceAllocator.calculate_required_resources p a).action = "scale_up" ∧
    (ResourceAllocator.calculate_required_resources p a).recommended_instances =
      a.instance_count.getD 1 + 1 ∧
    (ResourceAllocator.calculate_required_resources p a).recommended_instance_type =
      (if 90 < p.cpu_usage.getD 0 ∨ 90 < p.memory_usage.getD 0 then
        ResourceAllocator.get_larger_instance_type (a.instance_type.getD "t2.micro")
      else a.instance_type.getD "t2.micro") := by
  simp only [ResourceAllocator.calculate_required_resources,
    ResourceAllocator.CPU_THRESHOLD_HIGH, ResourceAllocator.MEMORY_THRESHOLD_HIGH]
  rw [if_pos h]
  exact ⟨rfl, rfl, rfl⟩

/-- Witness for C1: the spec scenario cpu 95 / memory 92 on one `t2.micro`
instance scales up to two `t2.small` instances. -/
theorem C1_scale_up_recommendation_witness :
    (ResourceAllocator.calculate_required_resources ⟨some 95, some 92, some 50⟩
      ⟨some 1, some "t2.micro"⟩).action = "scale_up" ∧
    (ResourceAllocator.calculate_required_resources ⟨some 95, some 92, some 50⟩
      ⟨some 1, some "t2.micro"⟩).recommended_instances = 2 ∧
    (ResourceAllocator.calculate_required_resources ⟨some 95, some 92, some 50⟩
      ⟨some 1, some "t2.micro"⟩).recommended_instance_type = "t2.small" := by
  have h := C1_scale_up_recommendation ⟨some 95, some 92, some 50⟩ ⟨some 1, some "t2.micro"⟩
    (Or.inl (by norm_num))
  refine ⟨h.1, ?_, ?_⟩
  · rw [h.2.1]; norm_num
  · rw [h.2.2, if_pos (Or.inl (by norm_num))]
    simp [ResourceAllocator.get_larger_instance_type, ResourceAllocator.type_hierarchy_up, dictGet]

/-- C2: for every predicted workload with cpu < 30 and memory < 35 and a
current allocation holding one instance, the recommendation either scales
down by stepping the tier down (when a smaller tier exists) with the count
unchanged, or maintains; the recommended count stays 1, never zero or
negative. -/
theorem C2_scale_down_at_one_instance (p : WorkloadSample) (a : Allocation)
    (hcpu : p.cpu_usage.getD 0 < 30) (hmem : p.memory_usage.getD 0 < 35)
    (hcount : a.instance_count.getD 1 = 1) :
    ((ResourceAllocator.calculate_required_resources p a).action = "scale_down" ∧
      (ResourceAllocator.calculate_required_resources p a).recommended_instance_type =
        ResourceAllocator.get_smaller_instance_type (a.instance_type.getD "t2.micro") ∧
      ResourceAllocator.get_smaller_instance_type (a.instance_type.getD "t2.micro") ≠
        a.instance_type.getD "t2.micro" ∨
     (ResourceAllocator.calculate_required_resources p a).action = "maintain" ∧
      ResourceAllocator.get_smaller_instance_type (a.instance_type.getD "t2.micro") =
        a.instance_type.getD "t2.micro") ∧
    (ResourceAllocator.calculate_required_resources p a).recommended_instances = 1 ∧
    0 < (ResourceAllocator.calculate_required_resources p a).recommended_instances := by
  simp only [ResourceAllocator.calculate_required_resources, ResourceAllocator.CPU_THRESHOLD_HIGH,
    ResourceAllocator.MEMORY_THRESHOLD_HIGH, ResourceAllocator.CPU_THRESHOLD_LOW,
    ResourceAllocator.MEMORY_THRESHOLD_LOW, hcount]
  rw [if_neg (by push_neg; constructor <;> linarith)]
  rw [if_pos ⟨hcpu, hmem⟩]
  rw [if_neg (by norm_num)]
  by_cases hs : ResourceAllocator.get_smaller_instance_type (a.instance_type.getD "t2.micro") ≠
      a.instance_type.getD "t2.micro"
  · rw [if_pos hs]
    exact ⟨Or.inl ⟨rfl, rfl, hs⟩, rfl, by norm_num⟩
  · rw [if_neg hs]
    push_neg at hs
    exact ⟨Or.inr ⟨rfl, hs⟩, rfl, by norm_num⟩

/-- Witness for C2: cpu 10 / memory 15 on a single `t2.micro` (the smallest
tier) keeps the allocation as it is. -/
theorem C2_scale_down_at_one_instance_witness :
    (ResourceAllocator.calculate_required_resources ⟨some 10, some 15, none⟩
      ⟨some 1, some "t2.micro"⟩).action = "maintain" ∧
    (ResourceAllocator.calculate_required_resources ⟨some 10, some 15, none⟩
      ⟨some 1, some "t2.micro"⟩).recommended_instances = 1 := by
  have h := C2_scale_down_at_one_instance ⟨some 10, some 15, none⟩ ⟨some 1, some "t2.micro"⟩
    (by norm_num) (by norm_num) (by norm_num)
  refine ⟨?_, h.2.1⟩
  rcases h.1 with ⟨_, _, hne⟩ | ⟨hm, _⟩
  · exfalso
    apply hne
    simp [ResourceAllocator.get_smaller_instance_type, ResourceAllocator.type_hierarchy_down,
      dictGet]
  · exact hm

/-- The budget-search loop body never stores a configuration whose monthly
cost exceeds the budget. -/
theorem budget_step_preserves (p : WorkloadSample) (budget : ℚ)
    (st : Option ResourceAllocator.BudgetConfig × ℚ) (pr : String × ℚ)
    (hst : ∀ bc, st.1 = some bc → bc.estimated_cost.monthly ≤ budget) :
    ∀ bc, (ResourceAllocator.budget_search_step p budget st pr).1 = some bc →
      bc.estimated_cost.monthly ≤ budget := by
  intro bc h
  rw [ResourceAllocator.budget_search_step] at h
  by_cases hc : (ResourceAllocator.estimate_cost pr.2 pr.1).monthly ≤ budget
  · rw [if_pos hc] at h
    by_cases hs : ResourceAllocator.calculate_performance_score pr.2 pr.1 p > st.2
    · rw [if_pos hs] at h
      simp only [Option.some.injEq] at h
      rw [← h]
      exact hc
    · rw [if_neg hs] at h
      exact hst bc h
  · rw [if_neg hc] at h
    exact hst bc h

/-- The invariant of `budget_step_preserves` carried through the whole
search fold. -/
theorem budget_fold_invariant (p : WorkloadSample) (budget : ℚ) (l : List (String × ℚ))
    (st : Option ResourceAllocator.BudgetConfig × ℚ)
    (hst : ∀ bc, st.1 = some bc → bc.estimated_cost.monthly ≤ budget) :
    ∀ bc, (l.foldl (ResourceAllocator.budget_search_step p budget) st).1 = some bc →
      bc.estimated_cost.monthly ≤ budget := by
  induction l generalizing st with
  | nil => exact hst
  | cons x t ih =>
    intro bc h
    exact ih (ResourceAllocator.budget_search_step p budget st x)
      (budget_step_preserves p budget st x hst) bc h

/-- C3: whenever `optimize_for_cost` returns a recommendation, its monthly
cost is within the budget; infeasibility yields `none`, never an error
(the function is total). -/
theorem C3_budget_never_exceeded (p : WorkloadSample) (a : Allocation) (budget : ℚ)
    (r : Recommendation)
    (h : ResourceAllocator.optimize_for_cost p a budget = some r) :
    r.estimated_cost.monthly ≤ budget := by
  rw [ResourceAllocator.optimize_for_cost] at h
  by_cases hgt : (ResourceAllocator.calculate_required_resources p a).estimated_cost.monthly >
      budget
  · rw [if_pos hgt] at h
    rw [ResourceAllocator.find_budget_optimal_config] at h
    cases hb : (ResourceAllocator.budget_search_pairs.foldl
        (ResourceAllocator.budget_search_step p budget) (none, -1)).1 with
    | none => rw [hb] at h; simp at h
    | some bc =>
      rw [hb] at h
      simp only [Option.map] at h
      simp only [Option.some.injEq] at h
      have hle := budget_fold_invariant p budget ResourceAllocator.budget_search_pairs
        (none, -1) (by intro bc2 h2; simp at h2) bc hb
      rw [← h]
      exact hle
  · rw [if_neg hgt] at h
    simp only [Option.some.injEq] at h
    rw [← h]
    exact not_lt.mp hgt

/-- Concrete evaluation of the cost estimator on one `t2.micro` instance,
showing the rounded fields. -/
theorem estimate_cost_micro_one :
    ResourceAllocator.estimate_cost 1 "t2.micro" = ⟨0.0116, 0.28, 8.35⟩ := by
  simp only [ResourceAllocator.estimate_cost, CostEstimate.mk.injEq]
  refine ⟨?_, ?_, ?_⟩
  · rw [pyRound_eq_self 4 _ 116 (by norm_num [ResourceAllocator.pricing, dictGet])]
    norm_num [ResourceAllocator.pricing, dictGet]
  · rw [pyRound_eval_hi 2 _ 27 (by norm_num [ResourceAllocator.pricing, dictGet])
      (by norm_num [ResourceAllocator.pricing, dictGet])]
    norm_num
  · rw [pyRound_eval_lo 2 _ 835 (by norm_num [ResourceAllocator.pricing, dictGet])
      (by norm_num [ResourceAllocator.pricing, dictGet])]
    norm_num

/-- The maintained recommendation for a 50/50 workload on one `t2.micro`. -/
def budget_witness_rec : Recommendation :=
  { action := "maintain"
    current_instances := some 1
    recommended_instances := 1
    current_instance_type := some "t2.micro"
    recommended_instance_type := "t2.micro"
    predicted_cpu := 50
    predicted_memory := 50
    estimated_cost := ⟨0.0116, 0.28, 8.35⟩ }

/-- Witness for C3: a 100-dollar budget admits the base recommendation for
one `t2.micro`, whose monthly cost 8.35 is within budget. -/
theorem C3_budget_never_exceeded_witness :
    ResourceAllocator.optimize_for_cost ⟨some 50, some 50, none⟩ ⟨some 1, some "t2.micro"⟩ 100 =
      some budget_witness_rec ∧
    budget_witness_rec.estimated_cost.monthly ≤ 100 := by
  have hbase : ResourceAllocator.calculate_required_resources ⟨some 50, some 50, none⟩
      ⟨some 1, some "t2.micro"⟩ = budget_witness_rec := by
    simp only [ResourceAllocator.calculate_required_resources, Option.getD_some,
      ResourceAllocator.CPU_THRESHOLD_HIGH, ResourceAllocator.MEMORY_THRESHOLD_HIGH,
      ResourceAllocator.CPU_THRESHOLD_LOW, ResourceAllocator.MEMORY_THRESHOLD_LOW]
    rw [if_neg (by norm_num), if_neg (by norm_num)]
    rw [estimate_cost_micro_one]
    rfl
  have hmain : ResourceAllocator.optimize_for_cost ⟨some 50, some 50, none⟩
      ⟨some 1, some "t2.micro"⟩ 100 = some budget_witness_rec := by
    simp only [ResourceAllocator.optimize_for_cost, hbase]
    rw [if_neg (by norm_num [budget_witness_rec])]
  exact ⟨hmain, C3_budget_never_exceeded ⟨some 50, some 50, none⟩ ⟨some 1, some "t2.micro"⟩ 100
    budget_witness_rec hmain⟩

/-- Counterexample for C4: for one `t2.micro` instance the returned fields
are rounded independently (hourly 0.0116, daily 0.28, monthly 8.35), so
`monthly` is neither `daily * 30` (= 8.4) nor `hourly * 24 * 30` (= 8.352):
the three fields are not exact multiples of each other. -/
theorem C4_cost_fields_counterexample :
    (ResourceAllocator.estimate_cost 1 "t2.micro").monthly ≠
      (ResourceAllocator.estimate_cost 1 "t2.micro").daily * 30 ∧
    (ResourceAllocator.estimate_cost 1 "t2.micro").monthly ≠
      (ResourceAllocator.estimate_cost 1 "t2.micro").hourly * 24 * 30 := by
  rw [estimate_cost_micro_one]
  norm_num

/-- C4 as amended: for every integer instance count n ≥ 0 and known tier,
the multiplicative relations hold for the unrounded costs: the returned
hourly cost is exactly the unit price times n (prices have at most four
decimals, so rounding to four is exact), while the returned monthly cost
equals hourly*24*30 only up to the 2-decimal rounding step (within 0.005)
and equals daily*30 only within 0.155. -/
theorem C4_cost_fields_amended (n : ℤ) (t : String) (hn : 0 ≤ n)
    (ht : t ∈ ResourceAllocator.pricing.map Prod.fst) :
    (ResourceAllocator.estimate_cost (n : ℚ) t).hourly =
      dictGet ResourceAllocator.pricing t 0.0116 * (n : ℚ) ∧
    |(ResourceAllocator.estimate_cost (n : ℚ) t).monthly -
      (ResourceAllocator.estimate_cost (n : ℚ) t).hourly * 24 * 30| ≤ 1/200 ∧
    |(ResourceAllocator.estimate_cost (n : ℚ) t).monthly -
      (ResourceAllocator.estimate_cost (n : ℚ) t).daily * 30| ≤ 31/200 := by
  have hP : ∃ P : ℤ, dictGet ResourceAllocator.pricing t 0.0116 = (P : ℚ) / 10000 := by
    simp only [ResourceAllocator.pricing, List.map_cons, List.map_nil, List.mem_cons,
      List.not_mem_nil, or_false] at ht
    rcases ht with rfl|rfl|rfl|rfl|rfl|rfl|rfl|rfl|rfl|rfl|rfl|rfl
    · exact ⟨116, by simp [ResourceAllocator.pricing, dictGet]; norm_num⟩
    · exact ⟨230, by simp [ResourceAllocator.pricing, dictGet]; norm_num⟩
    · exact ⟨464, by simp [ResourceAllocator.pricing, dictGet]; norm_num⟩
    · exact ⟨928, by simp [ResourceAllocator.pricing, dictGet]; norm_num⟩
    · exact ⟨1856, by simp [ResourceAllocator.pricing, dictGet]; norm_num⟩
    · exact ⟨3712, by simp [ResourceAllocator.pricing, dictGet]; norm_num⟩
    · exact ⟨104, by simp [ResourceAllocator.pricing, dictGet]; norm_num⟩
    · exact ⟨208, by simp [ResourceAllocator.pricing, dictGet]; norm_num⟩
    · exact ⟨416, by simp [ResourceAllocator.pricing, dictGet]; norm_num⟩
    · exact ⟨832, by simp [ResourceAllocator.pricing, dictGet]; norm_num⟩
    · exact ⟨1664, by simp [ResourceAllocator.pricing, dictGet]; norm_num⟩
    · exact ⟨3328, by simp [ResourceAllocator.pricing, dictGet]; norm_num⟩
  obtain ⟨P, hPeq⟩ := hP
  have h1 : (ResourceAllocator.estimate_cost (n : ℚ) t).hourly =
      dictGet ResourceAllocator.pricing t 0.0116 * (n : ℚ) := by
    simp only [ResourceAllocator.estimate_cost]
    rw [hPeq]
    exact pyRound_eq_self 4 _ (P * n) (by push_cast; ring)
  refine ⟨h1, ?_, ?_⟩
  · rw [h1]
    have hb := abs_pyRound_sub 2
      (dictGet ResourceAllocator.pricing t 0.0116 * (n : ℚ) * 24 * 30)
    norm_num at hb
    simp only [ResourceAllocator.estimate_cost]
    convert hb using 3 <;> norm_num
  · have hm := abs_pyRound_sub 2
      (dictGet ResourceAllocator.pricing t 0.0116 * (n : ℚ) * 24 * 30)
    have hdl := abs_pyRound_sub 2
      (dictGet ResourceAllocator.pricing t 0.0116 * (n : ℚ) * 24)
    norm_num at hm hdl
    rw [abs_le] at hm hdl
    simp only [ResourceAllocator.estimate_cost]
    rw [abs_le]
    constructor <;> nlinarith [hm.1, hm.2, hdl.1, hdl.2]

/-- Witness for C4 amended at n = 1, tier `t2.micro`. -/
theorem C4_cost_fields_amended_witness :
    (ResourceAllocator.estimate_cost ((1 : ℤ) : ℚ) "t2.micro").hourly =
      dictGet ResourceAllocator.pricing "t2.micro" 0.0116 * ((1 : ℤ) : ℚ) ∧
    |(ResourceAllocator.estimate_cost ((1 : ℤ) : ℚ) "t2.micro").monthly -
      (ResourceAllocator.estimate_cost ((1 : ℤ) : ℚ) "t2.micro").hourly * 24 * 30| ≤ 1/200 ∧
    |(ResourceAllocator.estimate_cost ((1 : ℤ) : ℚ) "t2.micro").monthly -
      (ResourceAllocator.estimate_cost ((1 : ℤ) : ℚ) "t2.micro").daily * 30| ≤ 31/200 :=
  C4_cost_fields_amended 1 "t2.micro" (by norm_num) (by simp [ResourceAllocator.pricing])

/-- Counterexample for C5: `0.0104` (the `t3.micro` price) is a known price
strictly below the `0.0116` an unknown tier such as `m5.large` is charged,
so the fallback is not the cheapest known tier price. -/
theorem C5_unknown_tier_counterexample :
    (ResourceAllocator.estimate_cost 1 "m5.large").hourly = 0.0116 ∧
    (0.0104 : ℚ) ∈ ResourceAllocator.pricing.map Prod.snd ∧
    ¬ ((0.0116 : ℚ) ≤ 0.0104) := by
  have hm5 : dictGet ResourceAllocator.pricing "m5.large" (0.0116 : ℚ) = 0.0116 := by
    simp [ResourceAllocator.pricing, dictGet]
  refine ⟨?_, by simp [ResourceAllocator.pricing], by norm_num⟩
  simp only [ResourceAllocator.estimate_cost, hm5]
  rw [pyRound_eq_self 4 _ 116 (by norm_num)]
  norm_num

/-- C5 as amended: a tier id absent from the pricing table is charged
exactly like `t2.micro` (the hard-coded 0.0116 fallback, which is the
default tier's price, not the cheapest known price). -/
theorem C5_unknown_tier_amended (n : ℚ) (t : String)
    (ht : t ∉ ResourceAllocator.pricing.map Prod.fst) :
    ResourceAllocator.estimate_cost n t = ResourceAllocator.estimate_cost n "t2.micro" := by
  have hmic : dictGet ResourceAllocator.pricing "t2.micro" (0.0116 : ℚ) = 0.0116 := by
    simp [ResourceAllocator.pricing, dictGet]
  simp only [ResourceAllocator.estimate_cost, hmic]
  rw [dictGet_of_not_mem _ _ _ ht]

/-- Witness for C5 amended: the unknown tier `m5.large` is priced like
`t2.micro` for three instances. -/
theorem C5_unknown_tier_amended_witness :
    ResourceAllocator.estimate_cost 3 "m5.large" =
      ResourceAllocator.estimate_cost 3 "t2.micro" :=
  C5_unknown_tier_amended 3 "m5.large" (by simp [ResourceAllocator.pricing])

/-- A dictionary lookup over positive values with a positive fallback is
positive. -/
theorem dictGet_pos (l : List (String × ℚ)) (k : String) (fb : ℚ) (hfb : 0 < fb)
    (hl : ∀ x ∈ l.map Prod.snd, 0 < x) : 0 < dictGet l k fb := by
  induction l with
  | nil => exact hfb
  | cons p t ih =>
    rw [dictGet]
    by_cases h : p.1 = k
    · rw [if_pos h]
      exact hl p.2 (by simp)
    · rw [if_neg h]
      exact ih fun x hx => hl x (by simp [hx])

/-- Every cost the optimizer looks up is positive. -/
theorem base_cost_pos (t : String) : 0 < dictGet CostOptimizer.base_costs t 0.0116 := by
  apply dictGet_pos _ _ _ (by norm_num)
  intro x hx
  simp only [CostOptimizer.base_costs, List.map_cons, List.map_nil, List.mem_cons,
    List.not_mem_nil, or_false] at hx
  rcases hx with rfl|rfl|rfl|rfl|rfl <;> norm_num

/-- C6: the optimization score lies in [0, 100] for every allocation with a
nonnegative instance count and arbitrary (possibly negative or above-100)
metric values, because both sub-scores are clamped. -/
theorem C6_score_in_range (a : Allocation) (m : CostOptimizer.Metrics)
    (h : 0 ≤ a.instance_count.getD 1) :
    0 ≤ CostOptimizer.calculate_optimization_score a m ∧
    CostOptimizer.calculate_optimization_score a m ≤ 100 := by
  have hcost : 0 ≤ CostOptimizer.calculate_cost_score a ∧
      CostOptimizer.calculate_cost_score a ≤ 100 := by
    rw [CostOptimizer.calculate_cost_score]
    refine ⟨le_max_left _ _, max_le (by norm_num) ?_⟩
    have hbc := base_cost_pos (a.instance_type.getD "t2.micro")
    have hnn : 0 ≤ dictGet CostOptimizer.base_costs (a.instance_type.getD "t2.micro") 0.0116 *
        a.instance_count.getD 1 := mul_nonneg (le_of_lt hbc) h
    have : 0 ≤ dictGet CostOptimizer.base_costs (a.instance_type.getD "t2.micro") 0.0116 *
        a.instance_count.getD 1 / 5 * 100 := by positivity
    linarith
  have hperf : 0 ≤ CostOptimizer.calculate_performance_score m ∧
      CostOptimizer.calculate_performance_score m ≤ 100 := by
    rw [CostOptimizer.calculate_performance_score]
    exact ⟨le_max_left _ _, max_le (by norm_num) (min_le_left _ _)⟩
  rw [CostOptimizer.calculate_optimization_score]
  constructor
  · apply pyRound_nonneg
    simp only [CostOptimizer.COST_WEIGHT, CostOptimizer.PERFORMANCE_WEIGHT]
    linarith [hcost.1, hperf.1]
  · apply pyRound_le_hundred
    simp only [CostOptimizer.COST_WEIGHT, CostOptimizer.PERFORMANCE_WEIGHT]
    linarith [hcost.2, hperf.2]

/-- Witness for C6: two `t2.large` instances with out-of-range metrics
(cpu 120, memory -5) still score within [0, 100]. -/
theorem C6_score_in_range_witness :
    0 ≤ CostOptimizer.calculate_optimization_score ⟨some 2, some "t2.large"⟩
      ⟨some 120, some (-5)⟩ ∧
    CostOptimizer.calculate_optimization_score ⟨some 2, some "t2.large"⟩
      ⟨some 120, some (-5)⟩ ≤ 100 :=
  C6_score_in_range ⟨some 2, some "t2.large"⟩ ⟨some 120, some (-5)⟩ (by norm_num)

/-- Counterexample for C8: returned savings fields are rounded to two
decimals, so for sub-cent inputs `monthly_savings` differs from
`baseline - optimized`: `calculate_roi 0.001 0 0` reports savings 0. -/
theorem C8_roi_counterexample :
    (CostOptimizer.calculate_roi 0.001 0 0).monthly_savings ≠ (0.001 : ℚ) - 0 := by
  simp only [CostOptimizer.calculate_roi]
  rw [pyRound_eval_lo 2 _ 0 (by norm_num) (by norm_num)]
  norm_num

/-- C8 as amended: zero implementation cost yields payback 0 months and ROI
100 percent regardless of the savings; positive implementation cost with
non-positive savings yields an infinite payback (`none`) rather than an
exception; the returned monthly and annual savings equal
`baseline - optimized` and `(baseline - optimized) * 12` up to the 2-decimal
rounding of the result fields (within 0.005 each). -/
theorem C8_roi_amended (b o i : ℚ) :
    (i = 0 → (CostOptimizer.calculate_roi b o i).payback_period_months = some 0 ∧
      (CostOptimizer.calculate_roi b o i).roi_percentage = 100) ∧
    (0 < i → b - o ≤ 0 → (CostOptimizer.calculate_roi b o i).payback_period_months = none) ∧
    |(CostOptimizer.calculate_roi b o i).monthly_savings - (b - o)| ≤ 1/200 ∧
    |(CostOptimizer.calculate_roi b o i).annual_savings - (b - o) * 12| ≤ 1/200 := by
  refine ⟨?_, ?_, ?_, ?_⟩
  · intro hi
    subst hi
    simp only [CostOptimizer.calculate_roi]
    rw [if_neg (by norm_num), if_neg (by norm_num)]
    constructor
    · simp only [Option.map]
      rw [pyRound_eq_self 1 0 0 (by norm_num)]
    · rw [pyRound_eq_self 2 100 10000 (by norm_num)]
  · intro hi hs
    simp only [CostOptimizer.calculate_roi]
    rw [if_pos hi, if_neg (by linarith)]
    rfl
  · simp only [CostOptimizer.calculate_roi]
    have hb := abs_pyRound_sub 2 (b - o)
    norm_num at hb
    exact hb
  · simp only [CostOptimizer.calculate_roi]
    have hb := abs_pyRound_sub 2 ((b - o) * 12)
    norm_num at hb
    exact hb

/-- Witness for C8 amended: the spec scenario `roi(100, 40, 0)` yields
monthly savings 60, ROI 100 percent and payback 0 months. -/
theorem C8_roi_amended_witness :
    (CostOptimizer.calculate_roi 100 40 0).payback_period_months = some 0 ∧
    (CostOptimizer.calculate_roi 100 40 0).roi_percentage = 100 ∧
    (CostOptimizer.calculate_roi 100 40 0).monthly_savings = 60 := by
  have h := (C8_roi_amended 100 40 0).1 rfl
  refine ⟨h.1, h.2, ?_⟩
  simp only [CostOptimizer.calculate_roi]
  rw [pyRound_eq_self 2 _ 6000 (by norm_num)]
  norm_num

/-- Counterexample for C9: the budget-search performance score treats a
missing `cpu_usage` as 50 rather than 0, so on one `t2.micro` a workload
with no cpu field scores 0 while one with cpu 0 scores 90. -/
theorem C9_defaulting_counterexample :
    ResourceAllocator.calculate_performance_score 1 "t2.micro" ⟨none, none, none⟩ ≠
    ResourceAllocator.calculate_performance_score 1 "t2.micro" ⟨some 0, none, none⟩ := by
  have h1 : ResourceAllocator.calculate_performance_score 1 "t2.micro" ⟨none, none, none⟩ =
      0 := by
    simp only [ResourceAllocator.calculate_performance_score, ResourceAllocator.capacity,
      dictGet, Option.getD_none]
    norm_num
  have h2 : ResourceAllocator.calculate_performance_score 1 "t2.micro" ⟨some 0, none, none⟩ =
      90 := by
    simp only [ResourceAllocator.calculate_performance_score, ResourceAllocator.capacity,
      dictGet, Option.getD_some]
    norm_num
  rw [h1, h2]
  norm_num

/-- C9 as amended: a workload sample with missing cpu/memory/network fields
is processed by the recommendation engine exactly like one whose fields are
all 0 (no failure), but the budget-search performance score defaults a
missing `cpu_usage` to 50, not 0. -/
theorem C9_defaulting_amended :
    (∀ a : Allocation, ResourceAllocator.calculate_required_resources ⟨none, none, none⟩ a =
      ResourceAllocator.calculate_required_resources ⟨some 0, some 0, some 0⟩ a) ∧
    (∀ (c : ℚ) (t : String) (m nw : Option ℚ),
      ResourceAllocator.calculate_performance_score c t ⟨none, m, nw⟩ =
      ResourceAllocator.calculate_performance_score c t ⟨some 50, m, nw⟩) := by
  constructor
  · intro a
    rfl
  · intro c t m nw
    rfl

/-- Counterexample for C10: `t2.2xlarge` is the extreme tier of the t2
family, and while stepping up fixes it, stepping down moves it to
`t2.xlarge`, so the extreme tier is not a fixed point of both functions. -/
theorem C10_stepping_counterexample :
    ResourceAllocator.get_larger_instance_type "t2.2xlarge" = "t2.2xlarge" ∧
    ResourceAllocator.get_smaller_instance_type "t2.2xlarge" ≠ "t2.2xlarge" := by
  constructor <;>
    simp [ResourceAllocator.get_larger_instance_type,
      ResourceAllocator.get_smaller_instance_type, ResourceAllocator.type_hierarchy_up,
      ResourceAllocator.type_hierarchy_down, dictGet]

/-- C10 as amended: stepping is a partial inverse round-trip (whenever a
step moves, the opposite step moves back); a tier id absent from the
step-up table (including each family's largest tier) is fixed under step-up,
and one absent from the step-down table (including each family's smallest
tier) is fixed under step-down. -/
theorem C10_stepping_amended :
    (∀ t : String, ResourceAllocator.get_larger_instance_type t ≠ t →
      ResourceAllocator.get_smaller_instance_type
        (ResourceAllocator.get_larger_instance_type t) = t) ∧
    (∀ t : String, ResourceAllocator.get_smaller_instance_type t ≠ t →
      ResourceAllocator.get_larger_instance_type
        (ResourceAllocator.get_smaller_instance_type t) = t) ∧
    (∀ t : String, t ∉ ResourceAllocator.type_hierarchy_up.map Prod.fst →
      ResourceAllocator.get_larger_instance_type t = t) ∧
    (∀ t : String, t ∉ ResourceAllocator.type_hierarchy_down.map Prod.fst →
      ResourceAllocator.get_smaller_instance_type t = t) := by
  refine ⟨?_, ?_, ?_, ?_⟩
  · intro t h
    by_cases hm : t ∈ ResourceAllocator.type_hierarchy_up.map Prod.fst
    · simp only [ResourceAllocator.type_hierarchy_up, List.map_cons, List.map_nil,
        List.mem_cons, List.not_mem_nil, or_false] at hm
      rcases hm with rfl|rfl|rfl|rfl|rfl|rfl|rfl|rfl|rfl|rfl <;>
        simp [ResourceAllocator.get_larger_instance_type,
          ResourceAllocator.get_smaller_instance_type, ResourceAllocator.type_hierarchy_up,
          ResourceAllocator.type_hierarchy_down, dictGet]
    · exact absurd (dictGet_of_not_mem _ _ _ hm) h
  · intro t h
    by_cases hm : t ∈ ResourceAllocator.type_hierarchy_down.map Prod.fst
    · simp only [ResourceAllocator.type_hierarchy_down, List.map_cons, List.map_nil,
        List.mem_cons, List.not_mem_nil, or_false] at hm
      rcases hm with rfl|rfl|rfl|rfl|rfl|rfl|rfl|rfl|rfl|rfl <;>
        simp [ResourceAllocator.get_larger_instance_type,
          ResourceAllocator.get_smaller_instance_type, ResourceAllocator.type_hierarchy_up,
          ResourceAllocator.type_hierarchy_down, dictGet]
    · exact absurd (dictGet_of_not_mem _ _ _ hm) h
  · intro t ht
    exact dictGet_of_not_mem _ _ _ ht
  · intro t ht
    exact dictGet_of_not_mem _ _ _ ht

/-- Witness for C10 amended: `t3.medium` round-trips through a step up, and
the foreign id `db.r5` is fixed by step-up. -/
theorem C10_stepping_amended_witness :
    ResourceAllocator.get_smaller_instance_type
      (ResourceAllocator.get_larger_instance_type "t3.medium") = "t3.medium" ∧
    ResourceAllocator.get_larger_instance_type "db.r5" = "db.r5" := by
  constructor
  · exact C10_stepping_amended.1 "t3.medium"
      (by simp [ResourceAllocator.get_larger_instance_type,
        ResourceAllocator.type_hierarchy_up, dictGet])
  · exact C10_stepping_amended.2.2.1 "db.r5"
      (by simp [ResourceAllocator.type_hierarchy_up])

/-- The distinct calendar days of a cost history, in order of first
appearance (the iteration order of the daily-costs dictionary). -/
def trend_days (rs : List CostOptimizer.CostRecord) : List ℤ :=
  rs.foldl (fun acc r => if r.day ∈ acc then acc else acc ++ [r.day]) []

/-- The specified daily bucket total for day `d`: the sum of the costs of
every record stamped on that calendar day. -/
def trend_day_total (rs : List CostOptimizer.CostRecord) (d : ℤ) : ℚ :=
  ((rs.filter fun r => r.day = d).map fun r => r.cost.getD 0).sum

theorem updateAssoc_map (days : List ℤ) (g : ℤ → ℚ) (d : ℤ) (c : ℚ) (hnd : days.Nodup) :
    CostOptimizer.updateAssoc (days.map fun x => (x, g x)) d c =
      (if d ∈ days then days.map (fun x => (x, if x = d then g x + c else g x))
       else (days.map fun x => (x, g x)) ++ [(d, c)]) := by
  induction days with
  | nil => simp [CostOptimizer.updateAssoc]
  | cons k t ih =>
    have hnd2 : t.Nodup := hnd.of_cons
    have hk : k ∉ t := (List.nodup_cons.mp hnd).1
    simp only [List.map_cons, CostOptimizer.updateAssoc]
    by_cases hkd : k = d
    · subst hkd
      rw [if_pos rfl, if_pos (List.mem_cons_self _ _), if_pos (rfl : k = k)]
      congr 1
      apply List.map_congr_left
      intro x hx
      rw [if_neg (by rintro rfl; exact hk hx)]
    · rw [if_neg hkd, ih hnd2]
      by_cases hdm : d ∈ t
      · rw [if_pos hdm, if_pos (List.mem_cons.mpr (Or.inr hdm)), if_neg hkd]
      · rw [if_neg hdm,
          if_neg (by
            simp only [List.mem_cons]
            rintro (rfl | hc)
            · exact hkd rfl
            · exact hdm hc),
          List.cons_append]

theorem trend_days_append (rs : List CostOptimizer.CostRecord) (r : CostOptimizer.CostRecord) :
    trend_days (rs ++ [r]) =
      (if r.day ∈ trend_days rs then trend_days rs else trend_days rs ++ [r.day]) := by
  simp [trend_days, List.foldl_append]

/-- Every record day appears among the trend days. -/
theorem mem_trend_days (rs : List CostOptimizer.CostRecord) :
    ∀ r2 ∈ rs, r2.day ∈ trend_days rs := by
  induction rs using List.reverseRecOn with
  | nil => simp
  | append_singleton rs r ih =>
    intro r2 hr2
    rw [trend_days_append]
    rcases List.mem_append.mp hr2 with h | h
    · by_cases hm : r.day ∈ trend_days rs
      · rw [if_pos hm]; exact ih r2 h
      · rw [if_neg hm]; exact List.mem_append.mpr (Or.inl (ih r2 h))
    · rcases List.mem_singleton.mp h with rfl
      by_cases hm : r2.day ∈ trend_days rs
      · rw [if_pos hm]; exact hm
      · rw [if_neg hm]; simp

theorem daily_costs_append (rs : List CostOptimizer.CostRecord) (r : CostOptimizer.CostRecord) :
    CostOptimizer.daily_costs (rs ++ [r]) =
      CostOptimizer.updateAssoc (CostOptimizer.daily_costs rs) r.day (r.cost.getD 0) := by
  simp [CostOptimizer.daily_costs, List.foldl_append]

theorem trend_day_total_append (rs : List CostOptimizer.CostRecord)
    (r : CostOptimizer.CostRecord) (d : ℤ) :
    trend_day_total (rs ++ [r]) d =
      trend_day_total rs d + (if r.day = d then r.cost.getD 0 else 0) := by
  by_cases hc : r.day = d
  · simp [trend_day_total, List.filter_append, hc]
  · simp [trend_day_total, List.filter_append, hc]

theorem trend_day_total_of_not_mem (rs : List CostOptimizer.CostRecord) (d : ℤ)
    (h : d ∉ trend_days rs) : trend_day_total rs d = 0 := by
  have hf : rs.filter (fun r => r.day = d) = [] := by
    rw [List.filter_eq_nil]
    intro r2 hr2
    simp only [decide_eq_true_eq]
    rintro rfl
    exact h (mem_trend_days rs r2 hr2)
  rw [trend_day_total, hf]
  rfl

/-- The incrementally built daily-costs dictionary groups the history by
calendar day: its keys are the distinct days in order of first appearance
(without duplicates) and its values are the per-day cost sums. -/
theorem daily_costs_eq_trend (rs : List CostOptimizer.CostRecord) :
    CostOptimizer.daily_costs rs =
      (trend_days rs).map (fun d => (d, trend_day_total rs d)) ∧
    (trend_days rs).Nodup := by
  induction rs using List.reverseRecOn with
  | nil => constructor <;> simp [CostOptimizer.daily_costs, trend_days]
  | append_singleton rs r ih =>
    obtain ⟨ihEq, ihNd⟩ := ih
    constructor
    · rw [daily_costs_append, ihEq, updateAssoc_map _ _ _ _ ihNd, trend_days_append]
      by_cases hm : r.day ∈ trend_days rs
      · rw [if_pos hm, if_pos hm]
        apply List.map_congr_left
        intro x hx
        rw [trend_day_total_append]
        by_cases hxd : x = r.day
        · subst hxd
          rw [if_pos rfl, if_pos rfl]
        · rw [if_neg hxd, if_neg (fun hh => hxd hh.symm), add_zero]
      · rw [if_neg hm, if_neg hm, List.map_append]
        congr 1
        · apply List.map_congr_left
          intro x hx
          rw [trend_day_total_append]
          rw [if_neg (by rintro rfl; exact hm hx), add_zero]
        · simp [trend_day_total_append, trend_day_total_of_not_mem _ _ hm]
    · rw [trend_days_append]
      by_cases hm : r.day ∈ trend_days rs
      · rw [if_pos hm]
        exact ihNd
      · rw [if_neg hm]
        simp [List.nodup_append, ihNd, hm]

/-- The amended specification of `analyze_cost_trends`, stated over the
per-day grouping: bucket the records by calendar day (distinct days in
first-appearance order, each with the sum of its records' costs); with no
records everything is 0 and the trend is `stable`; with fewer than 7
buckets the trend is `insufficient_data`; with at least 7, the mean of the
last 7 bucket totals is compared to the mean of all earlier buckets (taken
equal to the recent mean when there are exactly 7): strictly above 1.1
times it is `increasing`, strictly below 0.9 times it is `decreasing`,
otherwise `stable`. The projected monthly cost is the unrounded average
daily cost times 30, rounded to 2 decimals. -/
def trend_analysis_spec (rs : List CostOptimizer.CostRecord) : CostOptimizer.TrendAnalysis :=
  if rs.isEmpty then
    { trend := "stable", average_daily_cost := 0, total_cost := 0,
      projected_monthly_cost := 0, days_analyzed := none }
  else
    let totals := (trend_days rs).map fun d => trend_day_total rs d
    let n := totals.length
    let avg := if totals.isEmpty then 0 else totals.sum / n
    let trend :=
      if 7 ≤ n then
        let recent := (totals.drop (n - 7)).sum / 7
        let older := if 7 < n then (totals.take (n - 7)).sum / ((n - 7 : ℕ) : ℚ) else recent
        if recent > older * 1.1 then "increasing"
        else if recent < older * 0.9 then "decreasing"
        else "stable"
      else "insufficient_data"
    { trend := trend
      average_daily_cost := pyRound 2 avg
      total_cost := pyRound 2 totals.sum
      projected_monthly_cost := pyRound 2 (avg * 30)
      days_analyzed := some n }

/-- C7 as amended: the trend analyzer implements `trend_analysis_spec`. -/
theorem C7_trend_amended (rs : List CostOptimizer.CostRecord) :
    CostOptimizer.analyze_cost_trends rs = trend_analysis_spec rs := by
  rw [CostOptimizer.analyze_cost_trends, trend_analysis_spec]
  have hcosts : (CostOptimizer.daily_costs rs).map Prod.snd =
      (trend_days rs).map (fun d => trend_day_total rs d) := by
    rw [(daily_costs_eq_trend rs).1, List.map_map]
    rfl
  rw [hcosts]

/-- Eight cost records on eight consecutive days: day 0 totals 1.0 and days
1-7 total 1.1 each, so the recent 7-day mean is exactly 1.1 times the prior
mean. -/
def trend_cx_records : List CostOptimizer.CostRecord :=
  [⟨0, some 1⟩, ⟨1, some 1.1⟩, ⟨2, some 1.1⟩, ⟨3, some 1.1⟩, ⟨4, some 1.1⟩,
   ⟨5, some 1.1⟩, ⟨6, some 1.1⟩, ⟨7, some 1.1⟩]

/-- Concrete evaluation of the trend analyzer on `trend_cx_records`. -/
theorem trend_cx_eval :
    CostOptimizer.analyze_cost_trends trend_cx_records =
      { trend := "stable", average_daily_cost := 1.09, total_cost := 8.7,
        projected_monthly_cost := 32.62, days_analyzed := some 8 } := by
  have hdc : CostOptimizer.daily_costs trend_cx_records =
      [(0, 1), (1, 1.1), (2, 1.1), (3, 1.1), (4, 1.1), (5, 1.1), (6, 1.1), (7, 1.1)] := by
    simp [trend_cx_records, CostOptimizer.daily_costs, CostOptimizer.updateAssoc]
  rw [CostOptimizer.analyze_cost_trends]
  rw [if_neg (by simp [trend_cx_records])]
  rw [hdc]
  simp only [List.map_cons, List.map_nil, List.length_cons, List.length_nil, List.isEmpty_cons,
    List.sum_cons, List.sum_nil, List.drop, List.take, CostOptimizer.TrendAnalysis.mk.injEq]
  norm_num
  refine ⟨?_, ?_, ?_⟩
  · rw [pyRound_eval_hi 2 _ 108 (by norm_num) (by norm_num)]
    norm_num
  · exact pyRound_eq_self 2 _ 870 (by norm_num)
  · rw [pyRound_eval_half_even 2 _ 3262 (by norm_num) (by norm_num)]
    norm_num

/-- Counterexample for C7: eight daily buckets whose recent 7-day mean is
exactly 1.10 times the prior mean are classified `stable` (the code compares
strictly), not `increasing` as the claim's non-strict threshold requires;
moreover the returned projected monthly cost 32.62 differs from the
returned average daily cost times 30 (1.09 * 30 = 32.7), because each field
is rounded separately. -/
theorem C7_trend_counterexample :
    (CostOptimizer.analyze_cost_trends trend_cx_records).trend = "stable" ∧
    (CostOptimizer.analyze_cost_trends trend_cx_records).projected_monthly_cost ≠
      (CostOptimizer.analyze_cost_trends trend_cx_records).average_daily_cost * 30 := by
  rw [trend_cx_eval]
  norm_num
